import Mathlib

/-!
Shallow embedding of the alerts pipeline of the surveillance system
(`alerts/utils.py`, `alerts/views.py`, `alerts/models.py`).

Conventions of the embedding:
* Django datetimes are modelled as `Int` minutes on an absolute axis;
  `cooldown_minutes` is a `Nat`, and `now - last_triggered < cooldown`
  is integer arithmetic on minutes.
* Times-of-day (`datetime.time`) are `Nat` minutes since midnight
  (0 .. 1439); weekdays are `Nat` (0 = Monday .. 6 = Sunday), as in
  Python's `datetime.weekday()`.
* `confidence` and confidence thresholds are `ℚ`.
* JSON dict lookups `conditions.get(k, d)` become `Option` fields read
  with `.getD d`; Python truthiness of a possibly-missing list is
  modelled by `.getD []` followed by an emptiness test.
* The current instant is passed explicitly (`now`, `now_hour`,
  `current_time`, `current_weekday`) since the Python reads
  `timezone.now()`.
-/

namespace Surveillance

/-- A detection event as read by the rule matcher
(`monitoring.models.DetectionEvent` fields used in `alerts/utils.py`). -/
structure DetectionEvent where
  event_type : String
  severity : String
  confidence : ℚ
  camera_id : Nat
  zone_id : Nat
  location_id : Nat
deriving DecidableEq

/-- The `trigger_conditions` JSON payload of an `AlertRule`: one optional
field per key that `should_trigger_alert` reads. A `time_windows` entry is
a `(start, end)` pair of integer hours. -/
structure TriggerConditions where
  event_types : Option (List String) := none
  min_severity : Option String := none
  min_confidence : Option ℚ := none
  camera_ids : Option (List Nat) := none
  zone_ids : Option (List Nat) := none
  time_windows : Option (List (Nat × Nat)) := none
deriving DecidableEq

/-- `alerts.models.AlertRule`, restricted to the fields the pipeline reads. -/
structure AlertRule where
  location_id : Nat
  trigger_type : String
  trigger_conditions : TriggerConditions
  is_active : Bool
  cooldown_minutes : Nat
  last_triggered : Option Int
deriving DecidableEq

/-- The severity ordinal table `severity_order` of `should_trigger_alert`
(`{'low': 0, 'medium': 1, 'high': 2, 'critical': 3}`); `none` models a key
miss, read back with `.getD 0` like Python's `dict.get(k, 0)`. -/
def severity_order (s : String) : Option Nat :=
  if s = "low" then some 0
  else if s = "medium" then some 1
  else if s = "high" then some 2
  else if s = "critical" then some 3
  else none

/-- The cooldown gate at the top of `should_trigger_alert`: blocked when
`rule.last_triggered` is set and `now - last_triggered < cooldown_minutes`. -/
def cooldown_blocks (rule : AlertRule) (now : Int) : Bool :=
  match rule.last_triggered with
  | none => false
  | some lt => now - lt < (rule.cooldown_minutes : Int)

/-- `should_trigger_alert(rule, detection_event)` from `alerts/utils.py`:
cooldown first, then dispatch on `trigger_type`, falling through to `True`
for an unrecognized trigger type. `now_hour` is `timezone.now().hour`. -/
def should_trigger_alert (rule : AlertRule) (event : DetectionEvent)
    (now : Int) (now_hour : Nat) : Bool :=
  if cooldown_blocks rule now then false
  else if rule.trigger_type = "detection_type" then
    (rule.trigger_conditions.event_types.getD []).contains event.event_type
  else if rule.trigger_type = "severity_level" then
    let required := rule.trigger_conditions.min_severity.getD "low"
    (severity_order event.severity).getD 0 ≥ (severity_order required).getD 0
  else if rule.trigger_type = "confidence_threshold" then
    event.confidence ≥ rule.trigger_conditions.min_confidence.getD (1/2)
  else if rule.trigger_type = "camera" then
    (rule.trigger_conditions.camera_ids.getD []).contains event.camera_id
  else if rule.trigger_type = "zone" then
    (rule.trigger_conditions.zone_ids.getD []).contains event.zone_id
  else if rule.trigger_type = "time_window" then
    (rule.trigger_conditions.time_windows.getD []).any
      (fun w => w.1 ≤ now_hour && now_hour ≤ w.2)
  else true

/-- The six recognized `trigger_type` values (`AlertRule.TRIGGER_TYPES`). -/
def known_trigger_types : List String :=
  ["detection_type", "severity_level", "camera", "zone",
   "time_window", "confidence_threshold"]

/-- The `time_restrictions` JSON payload of an `AlertRecipient`. Times of
day are minutes since midnight; weekdays use Python numbering (0 = Monday).
`allowed_days` read back with `.getD []` models Python truthiness: a
missing key and an empty list behave alike. -/
structure TimeRestrictions where
  allowed_days : Option (List Nat) := none
  start_time : Option Nat := none
  end_time : Option Nat := none
deriving DecidableEq

/-- `is_within_time_restrictions(time_restrictions)` from `alerts/utils.py`;
`none` models an empty or absent restrictions dict (Python falsy). The
weekday allow-list is checked first; then, when both bounds are set, a
normal window for `start <= end` and a midnight-wrapping window otherwise. -/
def is_within_time_restrictions (tr : Option TimeRestrictions)
    (current_time : Nat) (current_weekday : Nat) : Bool :=
  match tr with
  | none => true
  | some r =>
    let ds := r.allowed_days.getD []
    if !ds.isEmpty && !ds.contains current_weekday then false
    else
      match r.start_time, r.end_time with
      | some s, some e =>
        if s ≤ e then s ≤ current_time && current_time ≤ e
        else current_time ≥ s || current_time ≤ e
      | _, _ => true

/-- A user, as read by the dispatcher (`django.contrib.auth.models.User`):
only the id and email are consulted. -/
structure User where
  id : Nat
  email : String
deriving DecidableEq

/-- `alerts.models.NotificationChannel`, restricted to the fields used in
the fan-out and dispatch path; `webhook_url` and `phone_number` stand for
the corresponding keys of the channel's `configuration` dict. -/
structure Channel where
  id : Nat
  channel_type : String
  is_active : Bool
  webhook_url : Option String
  phone_number : Option String
  last_used : Option Int
deriving DecidableEq

/-- `alerts.models.AlertRecipient`, restricted to the fields used by
`send_alert_notifications`. -/
structure AlertRecipient where
  user : User
  location_id : Nat
  channels : List Channel
  is_active : Bool
  priority_filter : List String
  time_restrictions : Option TimeRestrictions
deriving DecidableEq

/-- The per-recipient filter of `send_alert_notifications`: the priority
filter is empty or contains the alert's priority, and the recipient's time
restrictions pass at the current instant. -/
def recipient_passes (r : AlertRecipient) (alert_priority : String)
    (current_time current_weekday : Nat) : Bool :=
  (r.priority_filter.isEmpty || r.priority_filter.contains alert_priority) &&
    is_within_time_restrictions r.time_restrictions current_time current_weekday

/-- The recipient-resolution part of `send_alert_notifications`: the
candidate pool is the active recipients at the alert's location, filtered
by `recipient_passes`, each expanded to one `(user, channel)` pair per
active channel. -/
def resolve_recipients (recipients : List AlertRecipient)
    (alert_location : Nat) (alert_priority : String)
    (current_time current_weekday : Nat) : List (User × Channel) :=
  let pool := recipients.filter
    (fun r => decide (r.location_id = alert_location) && r.is_active)
  let filtered := pool.filter
    (fun r => recipient_passes r alert_priority current_time current_weekday)
  filtered.flatMap
    (fun r => (r.channels.filter (fun c => c.is_active)).map
      (fun c => (r.user, c)))

/-- Outcome of the HTTP POST performed by `send_webhook_notification`:
either a response (status code, `X-Message-ID` header, body text) or a
raised exception with its message. -/
inductive HttpOutcome
  | response (status_code : Nat) (message_id : String) (body : String)
  | exn (message : String)
deriving DecidableEq

/-- The injected outside world for one dispatch: whether the mail
transport sends without raising, the phone number of the user's profile,
and the outcome of the webhook POST. -/
structure TransportEnv where
  email_ok : Bool
  profile_phone : Option String
  webhook : HttpOutcome
deriving DecidableEq

/-- `alerts.models.NotificationLog`, restricted to the fields the
dispatcher writes; `response_meta` stands for the `status_code` and
truncated `response` entries of the `metadata` dict. -/
structure NotificationLog where
  recipient : String
  status : String
  sent_at : Option Int
  error_message : String
  external_id : String
  retry_count : Nat
  response_meta : Option (Nat × String)
deriving DecidableEq

/-- `send_email_notification`: success exactly when the mail transport
does not raise. -/
def send_email_notification (env : TransportEnv) : Bool :=
  env.email_ok

/-- `send_sms_notification`: the phone number is the channel
configuration's `phone_number`, falling back to the user profile's phone;
missing phone means failure, otherwise the simulated send succeeds. -/
def send_sms_notification (channel : Channel) (env : TransportEnv) : Bool :=
  match channel.phone_number.or env.profile_phone with
  | none => false
  | some _ => true

/-- `send_push_notification`: the simulated push send always succeeds. -/
def send_push_notification : Bool := true

/-- `send_webhook_notification`: fails when `webhook_url` is missing;
otherwise POSTs and, given a response, stores the `X-Message-ID` header
and the status code with the body truncated to 500 characters on the log,
succeeding iff the status code is < 400; a raised exception stores its
message as `error_message` and fails. -/
def send_webhook_notification (channel : Channel) (env : TransportEnv)
    (log : NotificationLog) : Bool × NotificationLog :=
  match channel.webhook_url with
  | none => (false, log)
  | some _ =>
    match env.webhook with
    | .response code mid body =>
        (decide (code < 400),
         { log with external_id := mid,
                    response_meta := some (code, body.take 500) })
    | .exn msg => (false, { log with error_message := msg })

/-- `send_notification_via_channel(alert, channel, user)`: creates the log
in status `pending` with the user's email as recipient, dispatches on
`channel_type`, then on success marks the log `sent` with `sent_at = now`
and stamps the channel's `last_used`, and on failure marks it `failed`
with the fixed error message (the Python literal has an apostrophe,
elided here). Returns the final log and channel. -/
def send_notification_via_channel (channel : Channel) (user : User)
    (env : TransportEnv) (now : Int) : NotificationLog × Channel :=
  let log0 : NotificationLog :=
    { recipient := user.email, status := "pending", sent_at := none,
      error_message := "", external_id := "", retry_count := 0,
      response_meta := none }
  let step : Bool × NotificationLog :=
    if channel.channel_type = "email" then
      (send_email_notification env, log0)
    else if channel.channel_type = "sms" then
      (send_sms_notification channel env, log0)
    else if channel.channel_type = "webhook" then
      send_webhook_notification channel env log0
    else if channel.channel_type = "push" then
      (send_push_notification, log0)
    else (false, log0)
  if step.1 then
    ({ step.2 with status := "sent", sent_at := some now },
     { channel with last_used := some now })
  else
    ({ step.2 with status := "failed", error_message := "Erreur d envoi" },
     channel)

/-- The mutable part of an `alerts.models.Alert` touched by the
acknowledge/resolve views; `resolution_notes` stands for the
`resolution_notes` key of the `metadata` dict. -/
structure AlertState where
  status : String
  acknowledged_at : Option Int
  acknowledged_by : Option Nat
  resolved_at : Option Int
  resolved_by : Option Nat
  resolution_notes : Option String
deriving DecidableEq

/-- `acknowledge_alert(request, alert_id)` from `alerts/views.py`: only an
alert in status `pending` or `sent` is moved to `acknowledged` (stamping
`acknowledged_at`/`acknowledged_by`); any other status is rejected with an
error response and leaves the alert unchanged. Returns the new state and
the success flag of the JSON response. -/
def acknowledge_alert (a : AlertState) (now : Int) (user : Nat) :
    AlertState × Bool :=
  if a.status = "pending" || a.status = "sent" then
    ({ a with status := "acknowledged", acknowledged_at := some now,
              acknowledged_by := some user }, true)
  else (a, false)

/-- `resolve_alert(request, alert_id)` from `alerts/views.py`: with a
well-formed JSON body it unconditionally sets status `resolved`, stamps
`resolved_at`/`resolved_by`, and records non-empty notes in the metadata —
there is no check of the current status. -/
def resolve_alert (a : AlertState) (now : Int) (user : Nat)
    (notes : String) : AlertState × Bool :=
  ({ a with status := "resolved", resolved_at := some now,
            resolved_by := some user,
            resolution_notes :=
              if notes ≠ "" then some notes else a.resolution_notes }, true)

/-- `determine_alert_priority(rule, detection_event)`: the severity of the
detection mapped identically for critical/high/medium, anything else low. -/
def determine_alert_priority (event : DetectionEvent) : String :=
  if event.severity = "critical" then "critical"
  else if event.severity = "high" then "high"
  else if event.severity = "medium" then "medium"
  else "low"

/-- An alert as built by `create_alert_from_rule`: priority from the
detection severity, initial status `pending`, and the metadata snapshot
of the detection context. -/
structure Alert where
  priority : String
  status : String
  meta_camera_id : Nat
  meta_zone_id : Nat
  meta_confidence : ℚ
  meta_severity : String
deriving DecidableEq

/-- The successful body of `create_alert_from_rule`. -/
def alert_from_rule (event : DetectionEvent) : Alert :=
  { priority := determine_alert_priority event, status := "pending",
    meta_camera_id := event.camera_id, meta_zone_id := event.zone_id,
    meta_confidence := event.confidence, meta_severity := event.severity }

/-- `create_alert_from_rule(rule, detection_event)` catches any exception
and returns `None`; the `ok` oracle says, per rule, whether the
transactional create raises. -/
def create_alert_from_rule (ok : AlertRule → Bool) (rule : AlertRule)
    (event : DetectionEvent) : Option Alert :=
  if ok rule then some (alert_from_rule event) else none

/-- The per-rule loop of `process_detection`: each rule is matched with
`should_trigger_alert`; a successful creation appends the alert and
advances that rule's `last_triggered` to now, while a failed creation
(`None`) leaves the rule untouched, and the loop continues with the
remaining rules either way. Returns the created alerts and final rules. -/
def process_rules (ok : AlertRule → Bool) (event : DetectionEvent)
    (now : Int) (now_hour : Nat) :
    List AlertRule → List Alert × List AlertRule
  | [] => ([], [])
  | r :: rs =>
    let head : List Alert × AlertRule :=
      if should_trigger_alert r event now now_hour then
        match create_alert_from_rule ok r event with
        | some a => ([a], { r with last_triggered := some now })
        | none => ([], r)
      else ([], r)
    let rest := process_rules ok event now now_hour rs
    (head.1 ++ rest.1, head.2 :: rest.2)

/-- `process_detection(detection_event)`: the applicable rules are the
active rules at the event's location; they feed the per-rule loop, and
the list of created alerts (possibly empty) is returned. -/
def process_detection (ok : AlertRule → Bool) (event : DetectionEvent)
    (now : Int) (now_hour : Nat) (rules : List AlertRule) :
    List Alert × List AlertRule :=
  process_rules ok event now now_hour
    (rules.filter
      (fun r => decide (r.location_id = event.location_id) && r.is_active))

/-- Program counter of one detection-processing thread at a shared rule:
about to run the rule-match check, past the check with its boolean
outcome, or finished. -/
inductive ThreadPC
  | start
  | checked (pass : Bool)
  | done
deriving DecidableEq

/-- Shared state of the cooldown race model: the rule row whose
`last_triggered` both threads read and write, the number of alerts created
so far, and the two thread program counters. -/
structure RaceState where
  rule : AlertRule
  alerts : Nat
  pc1 : ThreadPC
  pc2 : ThreadPC
deriving DecidableEq

/-- One atomic step of one thread, as the code performs it: the check step
runs `should_trigger_alert` against the current shared rule row, and the
act step (only reached when the check passed) creates the alert and saves
`last_triggered = now` — in `process_detection` these are separate
statements with no lock or conditional update between them. -/
def thread_step (event : DetectionEvent) (now : Int) (now_hour : Nat)
    (rule : AlertRule) (alerts : Nat) (pc : ThreadPC) :
    AlertRule × Nat × ThreadPC :=
  match pc with
  | .start =>
      (rule, alerts, .checked (should_trigger_alert rule event now now_hour))
  | .checked true =>
      ({ rule with last_triggered := some now }, alerts + 1, .done)
  | .checked false => (rule, alerts, .done)
  | .done => (rule, alerts, .done)

/-- Run the two threads of the race model under a schedule: `true` steps
thread 1, `false` steps thread 2. -/
def run_schedule (event : DetectionEvent) (now : Int) (now_hour : Nat) :
    List Bool → RaceState → RaceState
  | [], s => s
  | b :: sched, s =>
    let next :=
      if b then
        let (ru, al, pc) := thread_step event now now_hour s.rule s.alerts s.pc1
        { s with rule := ru, alerts := al, pc1 := pc }
      else
        let (ru, al, pc) := thread_step event now now_hour s.rule s.alerts s.pc2
        { s with rule := ru, alerts := al, pc2 := pc }
    run_schedule event now now_hour sched next

end Surveillance

namespace Surveillance

/-- C1: whenever `last_triggered` is set and `now - last_triggered` is below
the cooldown, `should_trigger_alert` returns false, for every trigger type
and every condition payload. -/
theorem C1_cooldown_dominates (rule : AlertRule) (event : DetectionEvent)
    (now : Int) (now_hour : Nat) (lt : Int)
    (hset : rule.last_triggered = some lt)
    (hcool : now - lt < (rule.cooldown_minutes : Int)) :
    should_trigger_alert rule event now now_hour = false := by
  have hblock : cooldown_blocks rule now = true := by
    unfold cooldown_blocks
    rw [hset]
    simpa using hcool
  unfold should_trigger_alert
  rw [hblock]
  simp

/-- Witness for C1 at a concrete rule and event. -/
theorem C1_cooldown_dominates_witness :
    should_trigger_alert
      { location_id := 1, trigger_type := "detection_type",
        trigger_conditions := { event_types := some ["theft"] },
        is_active := true, cooldown_minutes := 5, last_triggered := some 100 }
      { event_type := "theft", severity := "high", confidence := 9/10,
        camera_id := 1, zone_id := 1, location_id := 1 }
      103 12 = false :=
  C1_cooldown_dominates _ _ 103 12 100 rfl (by decide)

/-- C6: for a `confidence_threshold` rule not blocked by cooldown, the match
check returns true iff the event's confidence is at least the rule's
`min_confidence` condition, defaulting to 1/2 when the key is absent; the
comparison is non-strict, so equality at the boundary matches. -/
theorem C6_confidence_threshold (rule : AlertRule) (event : DetectionEvent)
    (now : Int) (now_hour : Nat)
    (htype : rule.trigger_type = "confidence_threshold")
    (hcool : cooldown_blocks rule now = false) :
    should_trigger_alert rule event now now_hour = true ↔
      event.confidence ≥ rule.trigger_conditions.min_confidence.getD (1/2) := by
  unfold should_trigger_alert
  rw [hcool, htype]
  simp

/-- Witness for C6: confidence exactly at the default threshold 1/2 matches. -/
theorem C6_confidence_threshold_witness :
    should_trigger_alert
      { location_id := 1, trigger_type := "confidence_threshold",
        trigger_conditions := {},
        is_active := true, cooldown_minutes := 5, last_triggered := none }
      { event_type := "intrusion", severity := "low", confidence := 1/2,
        camera_id := 2, zone_id := 3, location_id := 1 }
      1000 8 = true :=
  (C6_confidence_threshold _ _ 1000 8 (by rfl) (by rfl)).mpr (by norm_num)

/-- C7: a rule whose `trigger_type` is none of the six recognized values
matches unconditionally once the cooldown gate passes, for every event. -/
theorem C7_unknown_trigger_matches (rule : AlertRule) (event : DetectionEvent)
    (now : Int) (now_hour : Nat)
    (htype : rule.trigger_type ∉ known_trigger_types)
    (hcool : cooldown_blocks rule now = false) :
    should_trigger_alert rule event now now_hour = true := by
  unfold should_trigger_alert
  rw [hcool]
  simp only [known_trigger_types, List.mem_cons, List.not_mem_nil, or_false,
    not_or] at htype
  obtain ⟨h1, h2, h3, h4, h5, h6⟩ := htype
  simp [h1, h2, h3, h4, h5, h6]

/-- Witness for C7 at a concrete unknown trigger type. -/
theorem C7_unknown_trigger_matches_witness :
    should_trigger_alert
      { location_id := 1, trigger_type := "wildcard",
        trigger_conditions := {},
        is_active := true, cooldown_minutes := 60, last_triggered := none }
      { event_type := "loitering", severity := "low", confidence := 1/10,
        camera_id := 7, zone_id := 9, location_id := 1 }
      500 3 = true :=
  C7_unknown_trigger_matches _ _ 500 3 (by decide) (by rfl)

/-- C5: the time-restriction check accepts everything when the restrictions
dict is empty; when both bounds are set and the weekday gate passes it is
the inclusive window for `start ≤ end` and the midnight-wrapped disjunction
for `start > end`; a failing weekday allow-list rejects independently of
the bounds; and the 22:00-06:00 window passes at 23:00 and 02:00 and fails
at 12:00. -/
theorem C5_time_restrictions :
    (∀ t wd, is_within_time_restrictions none t wd = true) ∧
    (∀ (r : TimeRestrictions) (t wd s e : Nat),
      r.start_time = some s → r.end_time = some e →
      (r.allowed_days.getD [] = [] ∨ wd ∈ r.allowed_days.getD []) →
      is_within_time_restrictions (some r) t wd =
        if s ≤ e then decide (s ≤ t) && decide (t ≤ e)
        else decide (t ≥ s) || decide (t ≤ e)) ∧
    (∀ (r : TimeRestrictions) (t wd : Nat),
      r.allowed_days.getD [] ≠ [] → wd ∉ r.allowed_days.getD [] →
      is_within_time_restrictions (some r) t wd = false) ∧
    (is_within_time_restrictions
      (some { start_time := some (22 * 60), end_time := some (6 * 60) })
      (23 * 60) 2 = true) ∧
    (is_within_time_restrictions
      (some { start_time := some (22 * 60), end_time := some (6 * 60) })
      (2 * 60) 2 = true) ∧
    (is_within_time_restrictions
      (some { start_time := some (22 * 60), end_time := some (6 * 60) })
      (12 * 60) 2 = false) := by
  refine ⟨fun t wd => rfl, ?_, ?_, by decide, by decide, by decide⟩
  · intro r t wd s e hs he hdays
    obtain ⟨ad, st, et⟩ := r
    simp only at hs he hdays
    subst hs; subst he
    have hpass : (!(ad.getD []).isEmpty && !(ad.getD []).contains wd) = false := by
      rcases hdays with h | h
      · simp [h]
      · simp [h]
    simp only [is_within_time_restrictions, hpass, Bool.false_eq_true, if_false]
  · intro r t wd hne hnot
    obtain ⟨ad, st, et⟩ := r
    simp only at hne hnot
    have hfail : (!(ad.getD []).isEmpty && !(ad.getD []).contains wd) = true := by
      simp [hnot, List.isEmpty_iff, hne]
    simp only [is_within_time_restrictions, hfail, if_true]

/-- Witness for C5: a concrete instantiation of the windowed branch. -/
theorem C5_time_restrictions_witness :
    is_within_time_restrictions
      (some { allowed_days := some [0, 1], start_time := some 540,
              end_time := some 1020 })
      600 1 =
      (decide (540 ≤ 600) && decide (600 ≤ 1020)) := by
  have h := C5_time_restrictions.2.1
    { allowed_days := some [0, 1], start_time := some 540,
      end_time := some 1020 } 600 1 540 1020 rfl rfl (by decide)
  simpa using h

/-- C4: `(u, c)` is a resolved delivery target of an alert exactly when some
candidate recipient at the alert's location is active, passes the priority
filter (empty allow-list or one containing the alert's priority) and the
time restrictions, has user `u`, and owns the active channel `c`; and a
recipient whose `priority_filter` is exactly `["critical"]` is excluded
for an alert of priority `"high"`. -/
theorem C4_recipient_resolution :
    (∀ (recipients : List AlertRecipient) (loc : Nat) (prio : String)
      (t wd : Nat) (u : User) (c : Channel),
      (u, c) ∈ resolve_recipients recipients loc prio t wd ↔
        ∃ r ∈ recipients, r.location_id = loc ∧ r.is_active = true ∧
          (r.priority_filter = [] ∨ prio ∈ r.priority_filter) ∧
          is_within_time_restrictions r.time_restrictions t wd = true ∧
          r.user = u ∧ c ∈ r.channels ∧ c.is_active = true) ∧
    (∀ (r : AlertRecipient) (t wd : Nat),
      r.priority_filter = ["critical"] →
      recipient_passes r "high" t wd = false) := by
  constructor
  · intro recipients loc prio t wd u c
    unfold resolve_recipients
    constructor
    · intro hmem
      rw [List.mem_flatMap] at hmem
      obtain ⟨r, hrf, hpair⟩ := hmem
      rw [List.mem_filter] at hrf
      obtain ⟨hrp, hpass⟩ := hrf
      rw [List.mem_filter] at hrp
      obtain ⟨hrin, hpool⟩ := hrp
      rw [List.mem_map] at hpair
      obtain ⟨c', hc', heq⟩ := hpair
      rw [List.mem_filter] at hc'
      obtain ⟨hcin, hcact⟩ := hc'
      cases heq
      rw [Bool.and_eq_true, decide_eq_true_eq] at hpool
      unfold recipient_passes at hpass
      rw [Bool.and_eq_true] at hpass
      have hpf : r.priority_filter = [] ∨ prio ∈ r.priority_filter := by
        simpa using hpass.1
      exact ⟨r, hrin, hpool.1, hpool.2, hpf, hpass.2, rfl, hcin, hcact⟩
    · rintro ⟨r, hrin, hloc, hact, hpf, htr, hu, hcin, hcact⟩
      rw [List.mem_flatMap]
      refine ⟨r, ?_, ?_⟩
      · rw [List.mem_filter]
        refine ⟨?_, ?_⟩
        · rw [List.mem_filter]
          exact ⟨hrin, by simp [hloc, hact]⟩
        · unfold recipient_passes
          rw [htr]
          rcases hpf with h | h
          · simp [h]
          · simp [h]
      · rw [List.mem_map]
        exact ⟨c, by rw [List.mem_filter]; exact ⟨hcin, hcact⟩, by rw [hu]⟩
  · intro r t wd hpf
    unfold recipient_passes
    rw [hpf]
    simp

/-- Witness for C4: a concrete recipient with filter `["critical"]` fails
the pass check for a `"high"` alert. -/
theorem C4_recipient_resolution_witness :
    recipient_passes
      { user := { id := 1, email := "guard" }, location_id := 1,
        channels := [], is_active := true,
        priority_filter := ["critical"], time_restrictions := none }
      "high" 600 2 = false :=
  C4_recipient_resolution.2 _ 600 2 rfl

/-- C3: for a webhook channel with a configured URL whose POST yields an
HTTP response, the dispatch succeeds (final log `sent`) iff the status
code is below 400; on success `sent_at` and the channel's `last_used` are
stamped with now; on failure the log is `failed` with a non-empty error
message; and `retry_count` stays 0 either way. -/
theorem C3_webhook_dispatch (channel : Channel) (user : User)
    (env : TransportEnv) (now : Int) (url mid body : String) (code : Nat)
    (htype : channel.channel_type = "webhook")
    (hurl : channel.webhook_url = some url)
    (hresp : env.webhook = .response code mid body) :
    ((send_notification_via_channel channel user env now).1.status = "sent"
        ↔ code < 400) ∧
    (code < 400 →
      (send_notification_via_channel channel user env now).1.sent_at
          = some now ∧
      (send_notification_via_channel channel user env now).2.last_used
          = some now) ∧
    (¬ code < 400 →
      (send_notification_via_channel channel user env now).1.status
          = "failed" ∧
      (send_notification_via_channel channel user env now).1.error_message
          ≠ "") ∧
    (send_notification_via_channel channel user env now).1.retry_count = 0 := by
  unfold send_notification_via_channel send_webhook_notification
  rw [htype, hurl, hresp]
  by_cases h : code < 400
  · simp [h]
  · simp [h]

/-- Witness for C3: an HTTP 500 response produces a failed log. -/
theorem C3_webhook_dispatch_witness :
    (send_notification_via_channel
      { id := 4, channel_type := "webhook", is_active := true,
        webhook_url := some "endpoint", phone_number := none,
        last_used := none }
      { id := 1, email := "guard" }
      { email_ok := true, profile_phone := none,
        webhook := .response 500 "" "error" }
      900).1.status = "failed" :=
  ((C3_webhook_dispatch _ _ _ 900 "endpoint" "" "error" 500
      rfl rfl rfl).2.2.1 (by decide)).1

/-- C10: whatever the channel type — including sms, push and webhook —
the log's `recipient` field is the user's email address. -/
theorem C10_recipient_is_email (channel : Channel) (user : User)
    (env : TransportEnv) (now : Int) :
    (send_notification_via_channel channel user env now).1.recipient
      = user.email := by
  obtain ⟨id, ctype, cact, curl, cphone, clast⟩ := channel
  obtain ⟨eok, ephone, ehttp⟩ := env
  unfold send_notification_via_channel send_webhook_notification
  cases curl <;> cases ehttp <;>
    simp only [] <;> split_ifs <;> rfl

/-- C2 counterexample: resolving an already-resolved alert is neither a
no-op nor an error — `resolve_alert` reports success and overwrites
`resolved_at` and `resolved_by` with the second resolver (last-writer-wins,
contradicting the claimed first-writer-wins monotonicity). -/
theorem C2_resolve_rewrites_counterexample :
    (resolve_alert
      { status := "resolved", acknowledged_at := some 5,
        acknowledged_by := some 1, resolved_at := some 10,
        resolved_by := some 1, resolution_notes := none }
      20 2 "").2 = true ∧
    (resolve_alert
      { status := "resolved", acknowledged_at := some 5,
        acknowledged_by := some 1, resolved_at := some 10,
        resolved_by := some 1, resolution_notes := none }
      20 2 "").1 ≠
      { status := "resolved", acknowledged_at := some 5,
        acknowledged_by := some 1, resolved_at := some 10,
        resolved_by := some 1, resolution_notes := none } ∧
    (resolve_alert
      { status := "resolved", acknowledged_at := some 5,
        acknowledged_by := some 1, resolved_at := some 10,
        resolved_by := some 1, resolution_notes := none }
      20 2 "").1.resolved_by = some 2 := by
  refine ⟨rfl, ?_, rfl⟩
  decide

/-- C2 (amended): acknowledge succeeds exactly from `pending` or `sent`,
otherwise it errors and leaves the alert unchanged — in particular it
never moves a resolved alert; resolve succeeds unconditionally from any
status, setting `resolved` and overwriting `resolved_at`/`resolved_by`
(last-writer-wins), so a second resolve re-resolves rather than being a
no-op or an error. -/
theorem C2_status_transitions_amended (a : AlertState) (now : Int)
    (u : Nat) (notes : String) :
    ((a.status = "pending" ∨ a.status = "sent") →
      acknowledge_alert a now u =
        ({ a with status := "acknowledged", acknowledged_at := some now,
                  acknowledged_by := some u }, true)) ∧
    (a.status ≠ "pending" → a.status ≠ "sent" →
      acknowledge_alert a now u = (a, false)) ∧
    ((resolve_alert a now u notes).1.status = "resolved" ∧
      (resolve_alert a now u notes).2 = true ∧
      (resolve_alert a now u notes).1.resolved_at = some now ∧
      (resolve_alert a now u notes).1.resolved_by = some u) ∧
    (a.status = "resolved" → acknowledge_alert a now u = (a, false)) := by
  refine ⟨?_, ?_, ⟨rfl, rfl, rfl, rfl⟩, ?_⟩
  · intro h
    unfold acknowledge_alert
    rcases h with h | h <;> simp [h]
  · intro h1 h2
    unfold acknowledge_alert
    simp [h1, h2]
  · intro h
    unfold acknowledge_alert
    simp [h]

/-- Witness for C2 (amended): acknowledging a resolved alert errors and
leaves it unchanged. -/
theorem C2_status_transitions_amended_witness :
    acknowledge_alert
      { status := "resolved", acknowledged_at := some 5,
        acknowledged_by := some 1, resolved_at := some 10,
        resolved_by := some 1, resolution_notes := none }
      30 3 =
      ({ status := "resolved", acknowledged_at := some 5,
         acknowledged_by := some 1, resolved_at := some 10,
         resolved_by := some 1, resolution_notes := none }, false) :=
  (C2_status_transitions_amended _ 30 3 "").2.2.2 rfl

/-- The per-rule loop in closed form: the created alerts are exactly the
successful creations among the triggering rules, and a rule comes out with
`last_triggered = now` exactly when it triggered and its creation
succeeded. -/
theorem process_rules_spec (ok : AlertRule → Bool) (event : DetectionEvent)
    (now : Int) (now_hour : Nat) (rs : List AlertRule) :
    (process_rules ok event now now_hour rs).1 =
      (rs.filter
        (fun r => should_trigger_alert r event now now_hour)).filterMap
        (fun r => create_alert_from_rule ok r event) ∧
    (process_rules ok event now now_hour rs).2 =
      rs.map (fun r =>
        if should_trigger_alert r event now now_hour &&
            (create_alert_from_rule ok r event).isSome then
          { r with last_triggered := some now }
        else r) := by
  induction rs with
  | nil => exact ⟨rfl, rfl⟩
  | cons r rs ih =>
    unfold process_rules
    by_cases h : should_trigger_alert r event now now_hour = true
    · rcases hc : create_alert_from_rule ok r event with _ | a <;>
        simp [h, hc, List.filter_cons, List.filterMap_cons, ih.1, ih.2]
    · rw [Bool.not_eq_true] at h
      simp [h, List.filter_cons, ih.1, ih.2]

/-- C8: in `process_detection`, a rule's `last_triggered` advances to now
exactly when its alert creation succeeded (a failed creation leaves it
unchanged), a creation failure for one rule does not stop the remaining
applicable rules from being evaluated, and the returned alert list is
exactly the successful creations of the triggering applicable rules,
possibly empty. -/
theorem C8_process_detection (ok : AlertRule → Bool)
    (event : DetectionEvent) (now : Int) (now_hour : Nat)
    (rules : List AlertRule) :
    (process_detection ok event now now_hour rules).1 =
      ((rules.filter
        (fun r => decide (r.location_id = event.location_id) &&
          r.is_active)).filter
        (fun r => should_trigger_alert r event now now_hour)).filterMap
        (fun r => create_alert_from_rule ok r event) ∧
    (process_detection ok event now now_hour rules).2 =
      (rules.filter
        (fun r => decide (r.location_id = event.location_id) &&
          r.is_active)).map
        (fun r =>
          if should_trigger_alert r event now now_hour &&
              (create_alert_from_rule ok r event).isSome then
            { r with last_triggered := some now }
          else r) :=
  process_rules_spec ok event now now_hour _

/-- C9: the claimed per-rule atomicity of the cooldown gate fails on the
code — two concurrent detections that both satisfy a never-triggered
rule can interleave so that both pass the cooldown check before either
writes `last_triggered`, creating two alerts, whereas a serial execution
of the same two threads creates exactly one. -/
theorem C9_cooldown_race :
    (run_schedule
      { event_type := "theft", severity := "high", confidence := 9/10,
        camera_id := 1, zone_id := 1, location_id := 1 }
      1000 14 [true, false, true, false]
      { rule :=
          { location_id := 1, trigger_type := "detection_type",
            trigger_conditions := { event_types := some ["theft"] },
            is_active := true, cooldown_minutes := 5,
            last_triggered := none },
        alerts := 0, pc1 := .start, pc2 := .start }).alerts = 2 ∧
    (run_schedule
      { event_type := "theft", severity := "high", confidence := 9/10,
        camera_id := 1, zone_id := 1, location_id := 1 }
      1000 14 [true, true, false, false]
      { rule :=
          { location_id := 1, trigger_type := "detection_type",
            trigger_conditions := { event_types := some ["theft"] },
            is_active := true, cooldown_minutes := 5,
            last_triggered := none },
        alerts := 0, pc1 := .start, pc2 := .start }).alerts = 1 := by
  constructor <;> decide

end Surveillance
